import Mathlib

set_option maxRecDepth 8000

/-!
Verification of the sawdust-watcher core: the coverage-detection pipeline
(`sawdust_watcher/detection.py`) and the monitor control loop
(`sawdust_watcher/main.py`), shallowly embedded in Lean 4.

Conventions of the embedding:
- Images are lists of rows; a color pixel is a BGR triple of naturals in
  [0,255], a gray pixel a single natural.
- The Python floats the program manipulates (coverage ratios, timestamps,
  Otsu's statistics) are all small rationals in this program, so they are
  modelled exactly by `Frac`, a normalized fraction type over `Int` whose
  operations reduce in the kernel.
- External OpenCV routines called by the code are embedded as Lean functions
  with OpenCV's documented integer semantics (`cv.subtract` = per-channel
  saturating subtraction, `cv.cvtColor BGR2GRAY` = fixed-point luma,
  `cv.threshold` with `THRESH_OTSU` = inter-class-variance threshold
  selection, `cv.medianBlur` = windowed median with replicated border).
  `cv.fastNlMeansDenoisingColored` is a collaborator outside the repository
  whose output feeds the pipeline; it is abstracted as a function parameter
  `denoise`, exactly as the loop's frame source and actuators are interfaces
  in the spec.
-/

/-- Exact fraction with normalized representation (gcd-reduced, positive
denominator), used to model the Python float values of this program, all of
which are small rationals computed exactly. -/
structure Frac where
  num : ℤ
  den : ℤ
deriving DecidableEq

/-- Normalize a numerator/denominator pair; a zero denominator collapses to
zero (never produced by the embedded code on its actual inputs). -/
def Frac.normed (n d : ℤ) : Frac :=
  if d = 0 then ⟨0, 1⟩
  else
    let s : ℤ := if d < 0 then -1 else 1
    let g : ℤ := (Int.gcd n d : ℤ)
    ⟨s * n / g, s * d / g⟩

def Frac.ofNat (n : ℕ) : Frac := ⟨(n : ℤ), 1⟩

def Frac.add (a b : Frac) : Frac :=
  Frac.normed (a.num * b.den + b.num * a.den) (a.den * b.den)

def Frac.sub (a b : Frac) : Frac :=
  Frac.normed (a.num * b.den - b.num * a.den) (a.den * b.den)

def Frac.mul (a b : Frac) : Frac :=
  Frac.normed (a.num * b.num) (a.den * b.den)

def Frac.div (a b : Frac) : Frac :=
  Frac.normed (a.num * b.den) (a.den * b.num)

/-- Exact `a <= b` on fractions (denominators are kept positive). -/
def Frac.le (a b : Frac) : Bool := decide (a.num * b.den ≤ b.num * a.den)

/-- Exact `a < b` on fractions. -/
def Frac.lt (a b : Frac) : Bool := decide (a.num * b.den < b.num * a.den)

/-- A single-channel (grayscale or binary) frame: rows of pixel values. -/
abbrev GrayFrame := List (List ℕ)

/-- A 3-channel color frame: rows of BGR triples. -/
abbrev ColorFrame := List (List (ℕ × ℕ × ℕ))

/-- The flat element view numpy takes of a single-channel array. -/
def npArrayG (g : GrayFrame) : List ℕ := g.flatten

/-- `img.size` of a single-channel array: total element count. -/
def npSizeG (g : GrayFrame) : ℕ := (npArrayG g).length

/-- `np.sum(img == v)` on a single-channel array: count of elements equal
to `v`. -/
def npCountG (g : GrayFrame) (v : ℕ) : ℕ := (npArrayG g).count v

/-- The three channel values of one BGR pixel, in memory order. -/
def chan3 (p : ℕ × ℕ × ℕ) : List ℕ := [p.1, p.2.1, p.2.2]

/-- The flat element view numpy takes of a 3-channel array: every channel
value of every pixel. -/
def npArrayC (c : ColorFrame) : List ℕ := c.flatten.flatMap chan3

/-- `img.size` of a 3-channel array: width * height * 3. -/
def npSizeC (c : ColorFrame) : ℕ := (npArrayC c).length

/-- `np.sum(img == v)` on a 3-channel array. -/
def npCountC (c : ColorFrame) (v : ℕ) : ℕ := (npArrayC c).count v

/-- Number of pixels (not elements) of a color frame. -/
def pixelsC (c : ColorFrame) : ℕ := (c.map List.length).sum

/-- Embeds `white_pixel_ratio` (detection.py:48-54) on the single-channel
arrays `detect` feeds it: `np.sum(img == 255) / img.size`. The division is
numpy float division; on an empty array it is 0/0, which numpy evaluates to
NaN (with a warning, not an exception) — modelled as `none`. -/
def white_pixel_rate (g : GrayFrame) : Option Frac :=
  if npSizeG g = 0 then none
  else some (Frac.div (Frac.ofNat (npCountG g 255)) (Frac.ofNat (npSizeG g)))

/-- Embeds `white_pixel_ratio` (detection.py:48-54) as applied to a
3-channel array: numpy counts and divides over every channel value. -/
def white_pixel_rateC (c : ColorFrame) : Option Frac :=
  if npSizeC c = 0 then none
  else some (Frac.div (Frac.ofNat (npCountC c 255)) (Frac.ofNat (npSizeC c)))

/-- Per-channel `cv.subtract` semantics: saturating (clamped-at-zero)
subtraction, which on naturals is truncated subtraction. -/
def satSub3 (p q : ℕ × ℕ × ℕ) : ℕ × ℕ × ℕ :=
  (p.1 - q.1, p.2.1 - q.2.1, p.2.2 - q.2.2)

/-- `cv.subtract` on color frames (element-wise saturating difference). -/
def cvSubtractC (a b : ColorFrame) : ColorFrame :=
  List.zipWith (List.zipWith satSub3) a b

/-- `cv.subtract` on single-channel frames. -/
def cvSubtractG (a b : GrayFrame) : GrayFrame :=
  List.zipWith (List.zipWith (fun x y => x - y)) a b

/-- `cv.cvtColor(_, cv.COLOR_BGR2GRAY)`: OpenCV's fixed-point luma,
gray = (R*4899 + G*9617 + B*1868 + 2^13) >> 14. -/
def cvtColorBGR2Gray (c : ColorFrame) : GrayFrame :=
  c.map (List.map (fun p => (p.2.2 * 4899 + p.2.1 * 9617 + p.1 * 1868 + 8192) / 16384))

/-- Accumulator of OpenCV's Otsu scan over the 256 histogram bins:
the cumulative pixel count `S` and weighted sum `W` of bins up to the
current one, and the best candidate so far — its bin `best` and its
between-class variance, kept exactly as the fraction
`bestNum / (n^2 * bestDen)`. -/
structure OtsuAcc where
  cumS : ℕ
  cumW : ℕ
  best : ℕ
  bestNum : ℕ
  bestDen : ℕ

/-- One bin of OpenCV's `getThreshVal_Otsu_8u` loop, in exact arithmetic.
With `S_i`/`W_i` the cumulative count and weighted sum through bin `i`,
`n` the pixel count and `T` the total weighted sum, the loop's
floating-point quantities are `q1 = S/n`, `mu1 = W/S`, `mu2 = (T-W)/(n-S)`
and `sigma = q1*(1-q1)*(mu1-mu2)^2 = (W*n - T*S)^2 / (n^2 * S * (n-S))`;
the scan keeps the first strict maximizer of `sigma`, skipping degenerate
bins (`q1 <= 0` or `q2 <= 0`, i.e. `S = 0` or `S = n`; OpenCV tests these
against the float epsilon — modelled as exact tests, valid for the frame
sizes at hand). The maximality comparison is cross-multiplied into the
natural numbers, with the common factor `n^2` cancelled. -/
def otsuStep (hist : ℕ → ℕ) (n total : ℕ) (st : OtsuAcc) (i : ℕ) : OtsuAcc :=
  let s := st.cumS + hist i
  let w := st.cumW + i * hist i
  cond (s.beq 0 || s.beq n)
    { st with cumS := s, cumW := w }
    (let a := w * n
     let b := total * s
     let d := cond (b.ble a) (a - b) (b - a)
     let dsq := d * d
     let den := s * (n - s)
     cond ((st.bestNum * den).blt (dsq * st.bestDen)) ⟨s, w, i, dsq, den⟩
       { st with cumS := s, cumW := w })

/-- OpenCV's automatic threshold selection by inter-class-variance
maximization (`THRESH_OTSU`), as run by `cv.threshold`: the bin index
in 0..255 at which the between-class variance of the histogram split is
(first) maximal. -/
def otsuThreshold (g : GrayFrame) : ℕ :=
  let n := npSizeG g
  if n = 0 then 0
  else
    let hist : ℕ → ℕ := fun v => npCountG g v
    let total : ℕ := (List.range 256).foldl (fun a i => a + i * hist i) 0
    ((List.range 256).foldl (otsuStep hist n total) ⟨0, 0, 0, 0, 1⟩).best

/-- Embeds the call `cv.threshold(img_gray, thresh_lower, thresh_upper,
cv.THRESH_BINARY + cv.THRESH_OTSU)` (detection.py:209-211). With the
`THRESH_OTSU` flag OpenCV discards the passed threshold, computes the Otsu
threshold `t` from the histogram, returns it as first component, and maps
each pixel to `maxval` when strictly greater than `t`, else 0. -/
def cvThresholdBinaryOtsu (g : GrayFrame) (thresh_lower thresh_upper : ℕ) : ℕ × GrayFrame :=
  let t := otsuThreshold g
  (t, g.map (List.map (fun p => if t < p then thresh_upper else 0)))

/-- Clamp an index into `[0, n)` (OpenCV `BORDER_REPLICATE`). -/
def clampIdx (i : ℤ) (n : ℕ) : ℕ :=
  if i < 0 then 0 else if (n : ℤ) ≤ i then n - 1 else i.toNat

/-- Pixel lookup with replicated border. -/
def pixelRepl (g : GrayFrame) (i j : ℤ) : ℕ :=
  (g.getD (clampIdx i g.length) []).getD (clampIdx j (g.headD []).length) 0

/-- The k*k neighborhood of position (r,c) with replicated border. -/
def windowAt (g : GrayFrame) (r c k : ℕ) : List ℕ :=
  (List.range k).flatMap (fun dr =>
    (List.range k).map (fun dc =>
      pixelRepl g ((r : ℤ) + (dr : ℤ) - ((k / 2 : ℕ) : ℤ))
        ((c : ℤ) + (dc : ℤ) - ((k / 2 : ℕ) : ℤ))))

/-- Median of a list (sorted middle element; windows have odd length). -/
def listMedian (l : List ℕ) : ℕ :=
  (l.insertionSort (· ≤ ·)).getD (l.length / 2) 0

/-- `cv.medianBlur(img, k)` on a single-channel frame: each output pixel is
the median of the k*k window around it, border replicated. -/
def cvMedianBlur (g : GrayFrame) (k : ℕ) : GrayFrame :=
  (List.range g.length).map (fun r =>
    (List.range (g.headD []).length).map (fun c => listMedian (windowAt g r c k)))

/-- The intermediate frames `detect` (detection.py:177-225) computes, one
field per local of the source, in pipeline order. The external
`cv.fastNlMeansDenoisingColored` collaborator (fixed parameters h=1,
hColor=10, templateWindowSize=7, searchWindowSize=21) is the `denoise`
argument. -/
structure DetectStages where
  img_denoised : ColorFrame
  img_diff : ColorFrame
  img_gray : GrayFrame
  thresh_ret : ℕ
  img_thresh : GrayFrame
  img_median : GrayFrame
  img_median_diff : GrayFrame
deriving DecidableEq

/-- The stage-by-stage computation of `detect` (detection.py:197-220). -/
def detectStages (denoise : ColorFrame → ColorFrame) (img : ColorFrame)
    (thresh_lower thresh_upper : ℕ) : DetectStages :=
  let img_denoised := denoise img
  let img_diff := cvSubtractC img_denoised img
  let img_gray := cvtColorBGR2Gray img_diff
  let tret := cvThresholdBinaryOtsu img_gray thresh_lower thresh_upper
  let img_thresh := tret.2
  let img_median := cvMedianBlur img_thresh 25
  let img_median_diff := cvSubtractG img_thresh img_median
  ⟨img_denoised, img_diff, img_gray, tret.1, img_thresh, img_median, img_median_diff⟩

/-- Embeds `detect` (detection.py:177-225). Mirrors the source body:
denoise, difference (`cv.subtract(img_denoised, img)`), grayscale,
Otsu-flagged threshold, contour removal (median blur and difference, the
result being only written to disk), then
`ratio = white_pixel_ratio(img_thresh)`. The snapshot write is external
I/O with no effect on the returned value. -/
def detect (denoise : ColorFrame → ColorFrame) (img : ColorFrame)
    (thresh_lower thresh_upper : ℕ) : Option Frac :=
  let img_denoised := denoise img
  let img_diff := cvSubtractC img_denoised img
  let img_gray := cvtColorBGR2Gray img_diff
  let img_thresh := (cvThresholdBinaryOtsu img_gray thresh_lower thresh_upper).2
  let img_median := cvMedianBlur img_thresh 25
  let _img_median_diff := cvSubtractG img_thresh img_median
  white_pixel_rate img_thresh

/-- The fixed-global-threshold binarization policy as the spec words it:
pixels with luminance at least the configured threshold become `maxval`,
every other pixel 0. Stated from the spec for comparison with the code's
`cvThresholdBinaryOtsu`. -/
def specFixedThreshold (g : GrayFrame) (t maxval : ℕ) : GrayFrame :=
  g.map (List.map (fun p => if t ≤ p then maxval else 0))

/-- A denoiser double: maps every pixel of the frame to the constant `v`
(shape-preserving), used to instantiate the external denoise collaborator
on concrete runs. -/
def constDenoise (v : ℕ × ℕ × ℕ) (c : ColorFrame) : ColorFrame :=
  c.map (List.map (fun _ => v))

/-- A concrete 1-row, 2-column all-black frame. -/
def imgA : ColorFrame := [[(0, 0, 0), (0, 0, 0)]]

/-- Typed frame-acquisition failure of the `FrameSource` collaborator
(`gpio_control.grab_frame`). -/
inductive CaptureError where
  | captureFailed
deriving DecidableEq

/-- Typed pipeline failures named by the spec. -/
inductive DetectError where
  | invalidInput
  | invalidConfiguration
deriving DecidableEq

/-- An error escaping one iteration of the `run` loop body. -/
inductive LoopError where
  | capture (e : CaptureError)
  | detection (e : DetectError)
deriving DecidableEq

/-- A frame stored in the stage map the loop writes out. -/
inductive PipeImg where
  | colorImg (c : ColorFrame)
  | grayImg (g : GrayFrame)
deriving DecidableEq

/-- What the call site `main.py:76-81` expects `detection.detect` to
return: a coverage ratio and the named stage map `img_pipe`. -/
abbrev DetectOutput := Frac × List (String × PipeImg)

/-- The loop state of `run` (main.py:64-65 and the GPIO outputs): the
`alarm_active` flag, the scan-window start `time_start`, and the two
actuator outputs (LED and buzzer on/off). -/
structure MonitorState where
  alarm_active : Bool
  time_start : Frac
  led : Bool
  buzzer : Bool
deriving DecidableEq

/-- The scan half of one `while True` iteration of `run` (main.py:69-101):
when the alarm is not active and the scan window has elapsed, grab a frame,
run detection, write the stage images (external I/O), and activate the
alarm when the coverage ratio reaches the configured percentage. The source
wraps no handler around the collaborator calls, so their failures escape as
`LoopError`. -/
def scan_step (scan_interval coverage_threshold_percent : Frac)
    (grab : Except CaptureError ColorFrame)
    (det : ColorFrame → Except DetectError DetectOutput)
    (now : Frac) (s : MonitorState) : Except LoopError MonitorState :=
  if s.alarm_active = false then
    if Frac.le (Frac.add s.time_start scan_interval) now = true then
      match grab with
      | Except.error e => Except.error (LoopError.capture e)
      | Except.ok img =>
        match det img with
        | Except.error e => Except.error (LoopError.detection e)
        | Except.ok out =>
          if Frac.le (Frac.div coverage_threshold_percent (Frac.ofNat 100)) out.1 = true then
            Except.ok { s with alarm_active := true, led := true, buzzer := true }
          else Except.ok s
    else Except.ok s
  else Except.ok s

/-- The reset half of one iteration of `run` (main.py:103-108): when the
button is pressed, clear the alarm, restart the scan window at the current
time, and deassert both outputs. Runs every iteration regardless of
state. -/
def button_step (button_pressed : Bool) (now : Frac) (s : MonitorState) : MonitorState :=
  if button_pressed then ⟨false, now, false, false⟩ else s

/-- One full iteration of the `while True` loop of `run` (main.py:67-108):
the scan step, then the button poll. An exception in the scan step unwinds
past the button poll and out of the loop, as in the source (no
try/except). -/
def run_iter (scan_interval coverage_threshold_percent : Frac)
    (grab : Except CaptureError ColorFrame)
    (det : ColorFrame → Except DetectError DetectOutput)
    (button_pressed : Bool) (now : Frac) (s : MonitorState) : Except LoopError MonitorState :=
  match scan_step scan_interval coverage_threshold_percent grab det now s with
  | Except.error e => Except.error e
  | Except.ok s1 => Except.ok (button_step button_pressed now s1)

/-- The parameter list of `detection.detect` as defined (detection.py:177). -/
def detectParamNames : List String := ["img", "output_path", "thresh_lower", "thresh_upper"]

/-- The keyword-argument names of the call `detection.detect(img=...,
noise_size=..., threshold=..., morph_size=...)` in the loop body
(main.py:76-81). -/
def mainDetectCallKeywords : List String := ["img", "noise_size", "threshold", "morph_size"]

/-- Python binds each keyword argument to the parameter of the same name;
the call raises TypeError when some keyword matches no parameter. -/
def kwargsBindOk (params kwargs : List String) : Bool :=
  kwargs.all (fun k => params.contains k)

/-- A detection double returning coverage 1/10 and an empty stage map. -/
def det1 : ColorFrame → Except DetectError DetectOutput := fun _ => Except.ok (⟨1, 10⟩, [])

/-- Loop state with the alarm inactive, window start 0, outputs off. -/
def s0 : MonitorState := ⟨false, ⟨0, 1⟩, false, false⟩

/-- Loop state with the alarm active and both outputs asserted. -/
def sAlarm : MonitorState := ⟨true, ⟨0, 1⟩, true, true⟩

theorem zipWith_getElem?_some {α β γ : Type} (f : α → β → γ) :
    ∀ (as : List α) (bs : List β) (i : ℕ) (a : α) (b : β),
      as[i]? = some a → bs[i]? = some b → (List.zipWith f as bs)[i]? = some (f a b) := by
  intro as
  induction as with
  | nil => intro bs i a b ha _; simp at ha
  | cons x xs ih =>
    intro bs i a b ha hb
    cases bs with
    | nil => simp at hb
    | cons y ys =>
      cases i with
      | zero =>
        simp only [List.getElem?_cons_zero, Option.some.injEq] at ha hb
        subst ha; subst hb
        simp [List.zipWith_cons_cons]
      | succ n =>
        rw [List.zipWith_cons_cons, List.getElem?_cons_succ]
        exact ih ys n a b (by simpa using ha) (by simpa using hb)

theorem length_flatMap_chan3 :
    ∀ (l : List (ℕ × ℕ × ℕ)), (l.flatMap chan3).length = 3 * l.length := by
  intro l
  induction l with
  | nil => rfl
  | cons x xs ih =>
    simp only [List.flatMap_cons, List.length_append, ih, chan3, List.length_cons,
      List.length_nil]
    omega

theorem npSizeC_three_per_pixel (c : ColorFrame) : npSizeC c = 3 * pixelsC c := by
  unfold npSizeC npArrayC pixelsC
  rw [length_flatMap_chan3, List.length_flatten]

theorem run_iter_ok_split (si thrp : Frac) (grab : Except CaptureError ColorFrame)
    (det : ColorFrame → Except DetectError DetectOutput) (btn : Bool) (now : Frac)
    (s s' : MonitorState) (h : run_iter si thrp grab det btn now s = Except.ok s') :
    ∃ s1, scan_step si thrp grab det now s = Except.ok s1 ∧ s' = button_step btn now s1 := by
  unfold run_iter at h
  cases hs : scan_step si thrp grab det now s with
  | error e => rw [hs] at h; simp at h
  | ok s1 => rw [hs] at h; exact ⟨s1, rfl, (Except.ok.inj h).symm⟩

theorem scan_step_ok_cases (si thrp : Frac) (grab : Except CaptureError ColorFrame)
    (det : ColorFrame → Except DetectError DetectOutput) (now : Frac) (s s1 : MonitorState)
    (h : scan_step si thrp grab det now s = Except.ok s1) :
    s1 = s ∨
      (s.alarm_active = false ∧ Frac.le (Frac.add s.time_start si) now = true ∧
        (∃ img out, grab = Except.ok img ∧ det img = Except.ok out ∧
          Frac.le (Frac.div thrp (Frac.ofNat 100)) out.1 = true) ∧
        s1 = { s with alarm_active := true, led := true, buzzer := true }) := by
  by_cases ha : s.alarm_active = false
  · by_cases hd : Frac.le (Frac.add s.time_start si) now = true
    · cases grab with
      | error e => simp [scan_step, ha, hd] at h
      | ok img =>
        cases hdet : det img with
        | error e => simp [scan_step, ha, hd, hdet] at h
        | ok out =>
          by_cases hr : Frac.le (Frac.div thrp (Frac.ofNat 100)) out.1 = true
          · simp [scan_step, ha, hd, hdet, hr] at h
            exact Or.inr ⟨ha, hd, ⟨img, out, rfl, hdet, hr⟩, h.symm⟩
          · simp [scan_step, ha, hd, hdet, hr] at h
            exact Or.inl h.symm
    · simp [scan_step, ha, hd] at h
      exact Or.inl h.symm
  · simp [scan_step, ha] at h
    exact Or.inl h.symm

/-- Claim C1 (amended): the coverage value `detect` returns is the white
share of the thresholded frame `img_thresh` — the stage BEFORE contour
removal — namely the count of 255-valued elements of `img_thresh` divided
by its element count; the post-contour-removal frame `img_median_diff` does
not enter the returned value. -/
theorem detect_rate_from_thresh_stage (denoise : ColorFrame → ColorFrame) (img : ColorFrame)
    (tl tu : ℕ) :
    detect denoise img tl tu =
      white_pixel_rate ((detectStages denoise img tl tu).img_thresh) ∧
    (npSizeG ((detectStages denoise img tl tu).img_thresh) ≠ 0 →
      detect denoise img tl tu =
        some (Frac.div
          (Frac.ofNat (npCountG ((detectStages denoise img tl tu).img_thresh) 255))
          (Frac.ofNat (npSizeG ((detectStages denoise img tl tu).img_thresh))))) := by
  refine ⟨rfl, fun h => ?_⟩
  have h1 : detect denoise img tl tu =
      white_pixel_rate ((detectStages denoise img tl tu).img_thresh) := rfl
  rw [h1]
  unfold white_pixel_rate
  rw [if_neg h]

/-- Witness for C1's theorem at a concrete run (1x2 all-black frame,
constant denoiser): the thresholded frame is nonempty and the returned
value is its white count over its size. -/
theorem detect_rate_from_thresh_stage_witness :
    detect (constDenoise (16, 16, 16)) imgA 128 255 =
      some (Frac.div
        (Frac.ofNat (npCountG ((detectStages (constDenoise (16, 16, 16)) imgA 128 255).img_thresh) 255))
        (Frac.ofNat (npSizeG ((detectStages (constDenoise (16, 16, 16)) imgA 128 255).img_thresh)))) :=
  (detect_rate_from_thresh_stage (constDenoise (16, 16, 16)) imgA 128 255).2 (by decide)

/-- Claim C1 counterexample: on a concrete accepted frame the returned
coverage value is 1, while the white share of the final binary frame
produced by the pipeline (`img_median_diff`, the frame after the last
executed post-threshold stage) is 0 — the claimed equality fails. -/
theorem detect_ignores_final_frame :
    detect (constDenoise (16, 16, 16)) imgA 128 255 = some (Frac.ofNat 1) ∧
    white_pixel_rate ((detectStages (constDenoise (16, 16, 16)) imgA 128 255).img_median_diff) =
      some (Frac.ofNat 0) ∧
    (Frac.ofNat 1 : Frac) ≠ Frac.ofNat 0 :=
  ⟨rfl, rfl, by decide⟩

/-- Claim C3 (amended): `detect` performs no configuration validation at
all; in particular the `thresh_lower` argument is accepted unconditionally
and has no effect on the result (the Otsu flag discards it). -/
theorem detect_ignores_thresh_lower (denoise : ColorFrame → ColorFrame) (img : ColorFrame)
    (tl tl' tu : ℕ) : detect denoise img tl tu = detect denoise img tl' tu := rfl

/-- Claim C3 counterexample: `threshold = 300` is not rejected — `detect`
runs the full pixel pipeline and returns a coverage value, identical to the
one obtained with the in-range threshold 128. -/
theorem detect_accepts_threshold_300 :
    detect (constDenoise (16, 16, 16)) imgA 300 255 = some (Frac.ofNat 1) ∧
    detect (constDenoise (16, 16, 16)) imgA 300 255 =
      detect (constDenoise (16, 16, 16)) imgA 128 255 :=
  ⟨rfl, rfl⟩

/-- Claim C5 (amended): the difference stage computes the pixel-wise
saturating difference DENOISED minus ORIGINAL (clamped at zero, no
wraparound), i.e. the operand order is the reverse of the claim's. -/
theorem diff_stage_pointwise (denoise : ColorFrame → ColorFrame) (img : ColorFrame)
    (tl tu i j : ℕ) (p q : ℕ × ℕ × ℕ)
    (hp : ((denoise img)[i]?.bind (fun row => row[j]?)) = some p)
    (hq : (img[i]?.bind (fun row => row[j]?)) = some q) :
    ((detectStages denoise img tl tu).img_diff[i]?.bind (fun row => row[j]?)) =
      some (satSub3 p q) := by
  have hd : (detectStages denoise img tl tu).img_diff = cvSubtractC (denoise img) img := rfl
  rw [hd]
  cases hrp : (denoise img)[i]? with
  | none => rw [hrp] at hp; simp at hp
  | some rowp =>
    cases hrq : img[i]? with
    | none => rw [hrq] at hq; simp at hq
    | some rowq =>
      rw [hrp] at hp; rw [hrq] at hq
      simp only [Option.some_bind] at hp hq
      have h1 : (cvSubtractC (denoise img) img)[i]? =
          some (List.zipWith satSub3 rowp rowq) :=
        zipWith_getElem?_some _ _ _ _ _ _ hrp hrq
      rw [h1]
      simp only [Option.some_bind]
      exact zipWith_getElem?_some _ _ _ _ _ _ hp hq

/-- Witness for C5's theorem: with a constant-3 denoiser on the pixel
(10,10,10), the difference stage yields 3 - 10 clamped to 0 per channel. -/
theorem diff_stage_pointwise_witness :
    ((detectStages (constDenoise (3, 3, 3)) [[(10, 10, 10)]] 128 255).img_diff[0]?.bind
      (fun row => row[0]?)) = some (satSub3 (3, 3, 3) (10, 10, 10)) :=
  diff_stage_pointwise (constDenoise (3, 3, 3)) [[(10, 10, 10)]] 128 255 0 0
    (3, 3, 3) (10, 10, 10) rfl rfl

/-- Claim C5 counterexample: the diff frame the pipeline computes is
`subtract(denoised, original)`, not `subtract(original, denoised)`: on the
frame [[(10,10,10)]] with denoised value (3,3,3) the code produces
[[(0,0,0)]], while original-minus-denoised would be [[(7,7,7)]]. -/
theorem diff_operand_order_swapped :
    (detectStages (constDenoise (3, 3, 3)) [[(10, 10, 10)]] 128 255).img_diff = [[(0, 0, 0)]] ∧
    cvSubtractC [[(10, 10, 10)]] (constDenoise (3, 3, 3) [[(10, 10, 10)]]) = [[(7, 7, 7)]] ∧
    (detectStages (constDenoise (3, 3, 3)) [[(10, 10, 10)]] 128 255).img_diff ≠
      cvSubtractC [[(10, 10, 10)]] (constDenoise (3, 3, 3) [[(10, 10, 10)]]) :=
  ⟨rfl, rfl, by decide⟩

/-- Claim C6 (amended): the binarization stage always applies the
automatic inter-class-variance (Otsu) policy: the configured `thresh_lower`
is ignored (any two values give the same frame), the applied threshold —
exposed as the call's first return component — is the Otsu threshold, and
a pixel becomes `thresh_upper` exactly when it strictly exceeds the Otsu
threshold, else 0. -/
theorem otsu_policy_binarization (g : GrayFrame) (tl tl' tu : ℕ) :
    (cvThresholdBinaryOtsu g tl tu).2 = (cvThresholdBinaryOtsu g tl' tu).2 ∧
    (cvThresholdBinaryOtsu g tl tu).1 = otsuThreshold g ∧
    (∀ (r : ℕ) (row : List ℕ), g[r]? = some row → ∀ (c p : ℕ), row[c]? = some p →
      ((cvThresholdBinaryOtsu g tl tu).2[r]?.bind (fun w => w[c]?)) =
        some (if otsuThreshold g < p then tu else 0)) := by
  refine ⟨rfl, rfl, fun r row hr c p hc => ?_⟩
  have h2 : (cvThresholdBinaryOtsu g tl tu).2 =
      g.map (List.map (fun p => if otsuThreshold g < p then tu else 0)) := rfl
  rw [h2, List.getElem?_map, hr]
  simp only [Option.map_some', Option.some_bind]
  rw [List.getElem?_map, hc]
  rfl

/-- Witness for C6's theorem on the concrete gray frame [[0,50]] with
configured threshold 128: the pixel valued 50 is mapped according to the
Otsu threshold, not the configured one. -/
theorem otsu_policy_binarization_witness :
    ((cvThresholdBinaryOtsu [[0, 50]] 128 255).2[0]?.bind (fun w => w[1]?)) =
      some (if otsuThreshold [[0, 50]] < 50 then 255 else 0) :=
  (otsu_policy_binarization [[0, 50]] 128 7 255).2.2 0 [0, 50] rfl 1 50 rfl

/-- Claim C6 counterexample: on the gray frame [[0,50]] with configured
threshold 128 the code outputs [[0,255]] (the pixel valued 50 < 128 becomes
white), while the fixed-threshold policy of the claim would output [[0,0]]
— the configured threshold is not the one applied. -/
theorem binarization_differs_from_fixed_policy :
    (cvThresholdBinaryOtsu [[0, 50]] 128 255).2 = [[0, 255]] ∧
    specFixedThreshold [[0, 50]] 128 255 = [[0, 0]] ∧
    (cvThresholdBinaryOtsu [[0, 50]] 128 255).2 ≠ specFixedThreshold [[0, 50]] 128 255 :=
  ⟨rfl, rfl, by decide⟩

/-- Claim C7: the loop's call `detection.detect(img=..., noise_size=...,
threshold=..., morph_size=...)` (main.py:76-81), which expects a coverage
ratio plus a stage map, does not bind against the parameters of
`detection.detect` as defined (detection.py:177) — Python keyword binding
fails, so no stage map is ever produced by the shipped `detect`. -/
theorem main_detect_call_keyword_mismatch :
    kwargsBindOk detectParamNames mainDetectCallKeywords = false ∧
    detectParamNames.contains "noise_size" = false :=
  ⟨rfl, rfl⟩

/-- Claim C9 (amended): the coverage computation is defined (no division
by zero) exactly when the frame is non-empty; an empty frame yields the
undefined 0/0 value (numpy NaN, modelled `none`) rather than a typed
failure. -/
theorem rate_defined_iff_nonempty (g : GrayFrame) :
    (white_pixel_rate g).isSome = true ↔ npSizeG g ≠ 0 := by
  unfold white_pixel_rate
  by_cases h : npSizeG g = 0
  · rw [if_pos h]; simp [h]
  · rw [if_neg h]; simp [h]

/-- Witness for C9's theorem: a 1x1 white frame has a defined ratio. -/
theorem rate_defined_iff_nonempty_witness :
    (white_pixel_rate [[255]]).isSome = true :=
  (rate_defined_iff_nonempty [[255]]).mpr (by decide)

/-- Claim C9 counterexample: on the empty frame the code computes 0/0 —
an undefined (NaN) ratio, not an `InvalidInput` failure (no such typed
failure exists in the code). -/
theorem empty_frame_rate_undefined :
    white_pixel_rate ([] : GrayFrame) = none ∧ npSizeG ([] : GrayFrame) = 0 :=
  ⟨rfl, rfl⟩

/-- Claim C10: `white_pixel_ratio` counts elements equal to 255 over the
total ELEMENT count: on a 3-channel frame the denominator is three times
the pixel count, while on a single-channel frame (such as the binary frame
`detect` passes it) it is exactly the pixel count. -/
theorem white_count_over_elements (c : ColorFrame) (g : GrayFrame) :
    npSizeC c = 3 * pixelsC c ∧
    (pixelsC c ≠ 0 → white_pixel_rateC c =
      some (Frac.div (Frac.ofNat (npCountC c 255)) (Frac.ofNat (3 * pixelsC c)))) ∧
    (npSizeG g ≠ 0 → white_pixel_rate g =
      some (Frac.div (Frac.ofNat (npCountG g 255)) (Frac.ofNat (npSizeG g)))) := by
  refine ⟨npSizeC_three_per_pixel c, fun h => ?_, fun h => ?_⟩
  · unfold white_pixel_rateC
    rw [npSizeC_three_per_pixel c]
    rw [if_neg (by omega)]
  · unfold white_pixel_rate
    rw [if_neg h]

/-- Witness for C10's theorem: concrete 1-pixel color frame and 1x2 gray
frame instances. -/
theorem white_count_over_elements_witness :
    white_pixel_rateC [[(255, 0, 0)]] =
      some (Frac.div (Frac.ofNat (npCountC [[(255, 0, 0)]] 255))
        (Frac.ofNat (3 * pixelsC [[(255, 0, 0)]]))) ∧
    white_pixel_rate [[255, 0]] =
      some (Frac.div (Frac.ofNat (npCountG [[255, 0]] 255))
        (Frac.ofNat (npSizeG [[255, 0]]))) :=
  ⟨(white_count_over_elements [[(255, 0, 0)]] [[255, 0]]).2.1 (by decide),
   (white_count_over_elements [[(255, 0, 0)]] [[255, 0]]).2.2 (by decide)⟩

/-- Claim C2 (amended): the loop body has no handler, so during Scanning a
frame-acquisition failure, or a pipeline `InvalidInput` or
`InvalidConfiguration` failure, propagates past the loop boundary as an
error of the iteration instead of returning the loop to Idle. -/
theorem scanning_failure_propagates (si thrp : Frac) (grab : Except CaptureError ColorFrame)
    (det : ColorFrame → Except DetectError DetectOutput) (btn : Bool) (now : Frac)
    (s : MonitorState) (halarm : s.alarm_active = false)
    (hdue : Frac.le (Frac.add s.time_start si) now = true) :
    (∀ e, grab = Except.error e →
      run_iter si thrp grab det btn now s = Except.error (LoopError.capture e)) ∧
    (∀ img d, grab = Except.ok img → det img = Except.error d →
      run_iter si thrp grab det btn now s = Except.error (LoopError.detection d)) := by
  constructor
  · intro e he
    subst he
    simp [run_iter, scan_step, halarm, hdue]
  · intro img d hg hd
    subst hg
    simp [run_iter, scan_step, halarm, hdue, hd]

/-- Witness for C2's theorem: a concrete due scan whose detection raises
`InvalidInput` makes the whole iteration fail with that error. -/
theorem scanning_failure_propagates_witness :
    run_iter (Frac.ofNat 5) (Frac.ofNat 5) (Except.ok imgA)
        (fun _ => Except.error DetectError.invalidInput) false (Frac.ofNat 10) s0 =
      Except.error (LoopError.detection DetectError.invalidInput) :=
  (scanning_failure_propagates (Frac.ofNat 5) (Frac.ofNat 5) (Except.ok imgA)
      (fun _ => Except.error DetectError.invalidInput) false (Frac.ofNat 10) s0
      rfl rfl).2 imgA DetectError.invalidInput rfl rfl

/-- Claim C2 counterexample: with the alarm inactive, a due scan window and
a failing frame acquisition, the iteration does not return to Idle and
continue — it terminates with the propagated `CaptureError`. -/
theorem capture_error_terminates_loop :
    run_iter (Frac.ofNat 5) (Frac.ofNat 5) (Except.error CaptureError.captureFailed)
        (fun _ => Except.ok (⟨0, 1⟩, [])) false (Frac.ofNat 10) s0 =
      Except.error (LoopError.capture CaptureError.captureFailed) := rfl

/-- Claim C4: over any iteration that completes, `alarm_active` changes
value only through a threshold-exceeded event — which sets it and asserts
both outputs — or an observed reset — which clears it and deasserts both
outputs; and while the alarm is active, an iteration without an observed
reset changes nothing, so both outputs stay asserted. -/
theorem alarm_transition_events (si thrp : Frac) (grab : Except CaptureError ColorFrame)
    (det : ColorFrame → Except DetectError DetectOutput) (btn : Bool) (now : Frac)
    (s s' : MonitorState)
    (h : run_iter si thrp grab det btn now s = Except.ok s') :
    (s'.alarm_active ≠ s.alarm_active →
      (btn = false ∧ s'.alarm_active = true ∧ s'.led = true ∧ s'.buzzer = true ∧
        s.alarm_active = false ∧ Frac.le (Frac.add s.time_start si) now = true ∧
        ∃ img out, grab = Except.ok img ∧ det img = Except.ok out ∧
          Frac.le (Frac.div thrp (Frac.ofNat 100)) out.1 = true) ∨
      (btn = true ∧ s'.alarm_active = false ∧ s'.led = false ∧ s'.buzzer = false)) ∧
    (s.alarm_active = true → btn = false → s' = s) := by
  obtain ⟨s1, hs1, hs'⟩ := run_iter_ok_split si thrp grab det btn now s s' h
  rcases scan_step_ok_cases si thrp grab det now s s1 hs1 with
    h1 | ⟨ha, hd, ⟨img, out, hg, hdet, hr⟩, h1⟩
  · subst h1
    cases btn with
    | false =>
      rw [hs']
      exact ⟨fun hne => absurd rfl hne, fun _ _ => rfl⟩
    | true =>
      rw [hs']
      exact ⟨fun _ => Or.inr ⟨rfl, rfl, rfl, rfl⟩, fun _ hbtn => Bool.noConfusion hbtn⟩
  · subst h1
    cases btn with
    | false =>
      rw [hs']
      refine ⟨fun _ => Or.inl ⟨rfl, rfl, rfl, rfl, ha, hd, img, out, hg, hdet, hr⟩,
        fun hsa _ => ?_⟩
      rw [ha] at hsa
      exact Bool.noConfusion hsa
    | true =>
      rw [hs']
      refine ⟨fun hne => ?_, fun hsa _ => ?_⟩
      · exact absurd (by rw [ha]; rfl) hne
      · rw [ha] at hsa
        exact Bool.noConfusion hsa

/-- Witness for C4's theorem: a due scan reporting 10% coverage against a
5% threshold moves the concrete idle state to the alarm state with both
outputs asserted, through the threshold-exceeded branch. -/
theorem alarm_transition_events_witness :
    (sAlarm.alarm_active ≠ s0.alarm_active →
      (false = false ∧ sAlarm.alarm_active = true ∧ sAlarm.led = true ∧ sAlarm.buzzer = true ∧
        s0.alarm_active = false ∧
        Frac.le (Frac.add s0.time_start (Frac.ofNat 5)) (Frac.ofNat 10) = true ∧
        ∃ img out, (Except.ok imgA : Except CaptureError ColorFrame) = Except.ok img ∧
          det1 img = Except.ok out ∧
          Frac.le (Frac.div (Frac.ofNat 5) (Frac.ofNat 100)) out.1 = true) ∨
      (false = true ∧ sAlarm.alarm_active = false ∧ sAlarm.led = false ∧ sAlarm.buzzer = false)) ∧
    (s0.alarm_active = true → false = false → sAlarm = s0) :=
  alarm_transition_events (Frac.ofNat 5) (Frac.ofNat 5) (Except.ok imgA) det1 false
    (Frac.ofNat 10) s0 sAlarm rfl

/-- Claim C8 (amended): an observed reset while the alarm is not active is
not a no-op: the completed iteration always ends in the state with the
alarm clear, both outputs deasserted, and `time_start` — the scan-window
start — reset to the current time. -/
theorem reset_observed_resets_state (si thrp : Frac) (grab : Except CaptureError ColorFrame)
    (det : ColorFrame → Except DetectError DetectOutput) (now : Frac) (s s' : MonitorState)
    (halarm : s.alarm_active = false)
    (h : run_iter si thrp grab det true now s = Except.ok s') :
    s' = ⟨false, now, false, false⟩ := by
  obtain ⟨s1, _, hs'⟩ := run_iter_ok_split si thrp grab det true now s s' h
  rw [hs']
  rfl

/-- Witness for C8's theorem: a concrete idle iteration with the button
pressed at time 3 + 4 ends with the window restarted at that time. -/
theorem reset_observed_resets_state_witness :
    (⟨false, Frac.ofNat 7, false, false⟩ : MonitorState) =
      ⟨false, Frac.add (Frac.ofNat 3) (Frac.ofNat 4), false, false⟩ :=
  reset_observed_resets_state (Frac.ofNat 5) (Frac.ofNat 5) (Except.ok imgA) det1
    (Frac.add (Frac.ofNat 3) (Frac.ofNat 4)) s0 ⟨false, Frac.ofNat 7, false, false⟩
    rfl rfl

/-- Claim C8 counterexample: with the alarm inactive (Idle, window not yet
due) and the reset input observed, the iteration is not a no-op — the
`time_start` field changes from 0 to the current time 3. -/
theorem idle_reset_changes_window :
    run_iter (Frac.ofNat 5) (Frac.ofNat 5) (Except.error CaptureError.captureFailed)
        (fun _ => Except.ok (⟨0, 1⟩, [])) true (Frac.ofNat 3) s0 =
      Except.ok ⟨false, Frac.ofNat 3, false, false⟩ ∧
    (⟨false, Frac.ofNat 3, false, false⟩ : MonitorState).time_start ≠ s0.time_start :=
  ⟨rfl, by decide⟩
